import Mathlib

/-!
Shallow embedding of the nage narrative engine core (the `src/` tree of the
repository) in Lean 4, used to settle the frozen specification claims.

Conventions of the embedding:
* Rust `Result<T, E>` becomes `Except E T`; `Option<T>` becomes `Option T`.
* `HashSet<String>` (player notes) becomes a `List String` queried by
  membership; `BTreeMap`/`HashMap` become association lists with first-match
  lookup.
* The embedded rlua script interpreter is an external collaborator (spec
  section 1); it is modelled as an explicit evaluation capability
  (`ScriptEnv` or a `String -> Except TemplateError T` argument) so that all
  definitions stay executable.
* Console printing, audio playback and file IO are external collaborators and
  are not modelled; only the control flow and values around them are.
* Definitions translated from files that are not present under `src/`
  (core/choice.rs, core/player.rs, text/templating.rs) carry a doc comment
  starting with `Modelled from the spec:`.
-/

namespace Nage

/-- Player notes: a set of free-form string flags (spec section 3), embedded
as a list queried by membership. -/
abbrev Notes := List String

/-- Player variables: a string-keyed mutable store, embedded as an
association list with first-match lookup. -/
abbrev Variables := List (String × String)

/-- First-match association-list lookup, standing in for map lookup. -/
def lookupKey (l : List (String × α)) (k : String) : Option α :=
  (l.find? fun p => p.1 == k).map (·.2)

/-- Last-write-wins variable update for the `Variables` store. -/
def setVariable (vs : Variables) (k v : String) : Variables :=
  (k, v) :: vs.filter fun p => !(p.1 == k)

/-- Errors of template resolution (spec section 7). -/
inductive TemplateError where
  | unknownVariable (name : String)
  | typeMismatch
  | scriptFailure (msg : String)
  | unterminatedMarker
deriving DecidableEq

/-- Errors of graph validation (spec section 7). -/
inductive ValidationError where
  | missingResponseInMenu
  | danglingDestination
  | malformedChoiceShape
  | scriptSyntaxError
deriving DecidableEq

/-- TextMode from src/src/text/display.rs: how text is formatted
disregarding its contents. -/
inductive TextMode where
  | dialogue
  | action
  | system
deriving DecidableEq

/-- TextMode::format from src/src/text/display.rs. The grey styling of the
system marker is console styling and is kept as the plain character. -/
def TextMode.format (m : TextMode) (text : String) : String :=
  match m with
  | .dialogue => "\"" ++ text ++ "\""
  | .action => text
  | .system => "▐ " ++ text

/-- Modelled from the spec: `TemplatableValue<T>` (src/src/text/templating.rs
is not under src/). A value that is either a fixed literal of type T or a
scripted expression evaluated by the embedded interpreter at resolution
time (spec section 3). -/
inductive TemplatableValue (T : Type) where
  | value (t : T)
  | template (script : String)

/-- Modelled from the spec: `TemplatableString` (src/src/text/templating.rs
is not under src/): literal text that may contain interpolation markers. -/
abbrev TemplatableString := String

/-- Modelled from the spec: `resolve_value` / `TemplatableValue::get_value`.
The literal variant returns the literal immediately with no context access;
the scripted variant invokes the embedded interpreter binding `ev`, which
bundles script evaluation and the typed coercion of its result (its errors
are `scriptFailure` and `typeMismatch`). -/
def TemplatableValue.get_value (tv : TemplatableValue T)
    (ev : String → Except TemplateError T) : Except TemplateError T :=
  match tv with
  | .value t => .ok t
  | .template script => ev script

/-- TextSpeed from src/src/text/display.rs. -/
inductive TextSpeed where
  | Delay (ms : TemplatableValue Nat)
  | Rate (cps : TemplatableValue Float)
  | Duration (ms : TemplatableValue Nat)

/-- Text from src/src/text/display.rs: a formattable piece of text. -/
structure Text where
  content : TemplatableString
  mode : TemplatableValue TextMode
  speed : Option TextSpeed
  newline : Option (TemplatableValue Bool)
  wait : Option (TemplatableValue Nat)

/-- An ordered list of text objects (src/src/text/display.rs). -/
abbrev TextLines := List Text

/-- Path from the spec (section 3): a prompt name, an optional file key
(absence means the current file), and a display flag. The defining file
core/path.rs is not under src/; the fields are those used by
src/src/core/prompt.rs and the spec. -/
structure Path where
  prompt : String
  file : Option String
  display : Bool

/-- Modelled from the spec: the input descriptor of a choice
(src/src/core/choice.rs is not under src/). Field shapes follow the uses in
src/src/core/prompt.rs lines 97-98: a captured-variable name and an
optional prompt string. -/
structure ChoiceInput where
  name : String
  text : Option String

/-- Modelled from the spec: one entry of the usability predicate, a note
required present (`has = true`) or absent (`has = false`)
(src/src/core/choice.rs is not under src/). -/
structure NoteRequirement where
  name : String
  has : Bool
deriving DecidableEq

/-- Modelled from the spec: Choice (src/src/core/choice.rs is not under
src/). Fields follow spec section 3: destination path, response text block,
input descriptor, ending text block, usability predicate, and applied
effects (notes to add, variables to set, sounds to trigger). The fields
`response`, `input`, `ending` are exactly those read by
src/src/core/prompt.rs and src/src/game/gloop.rs. -/
structure Choice where
  response : Option TextLines
  input : Option ChoiceInput
  ending : Option TextLines
  jump : Option Path
  require : Option (List NoteRequirement)
  applyNotes : List String
  applyVariables : List (String × String)
  sounds : List String

/-- Prompt from src/src/core/prompt.rs: optional text plus an ordered
sequence of choices. -/
structure Prompt where
  text : Option TextLines
  choices : List Choice

/-- A map of prompt names to prompts within a single file
(src/src/core/prompt.rs), as an association list. -/
abbrev PromptFile := List (String × Prompt)

/-- A map of file names to prompt files (src/src/core/prompt.rs). -/
abbrev Prompts := List (String × PromptFile)

/-- PromptModel from src/src/core/prompt.rs: the overarching function of a
prompt based on its choices. -/
inductive PromptModel where
  | input (name : String) (text : Option String)
  | response
  | redirect (choice : Choice)
  | ending (lines : TextLines)

/-- Prompt::model from src/src/core/prompt.rs lines 93-108. The Rust guard
`choices.len() == 1` followed by indexing `choices[0]` is embedded as the
singleton list pattern; the branch order (input, then no-response ending,
then no-response redirect, else response) is kept exactly. -/
def Prompt.model (p : Prompt) : PromptModel :=
  match p.choices with
  | [choice] =>
    match choice.input with
    | some inp => .input inp.name inp.text
    | none =>
      match choice.response with
      | none =>
        match choice.ending with
        | some ending => .ending ending
        | none => .redirect choice
      | some _ => .response
  | _ => .response

/-- Modelled from the spec: Choice usability check `can_player_use`
(src/src/core/choice.rs is not under src/). Per spec section 4.3, a choice
with no usability predicate is always usable; otherwise every note
requirement must be satisfied against the current notes set. -/
def Choice.can_player_use (c : Choice) (notes : Notes) : Bool :=
  match c.require with
  | none => true
  | some reqs => reqs.all fun req => notes.contains req.name == req.has

/-- Prompt::usable_choices from src/src/core/prompt.rs lines 111-115. -/
def Prompt.usable_choices (p : Prompt) (notes : Notes) : List Choice :=
  p.choices.filter fun choice => choice.can_player_use notes

/-- Whether a destination path resolves to an existing (file, prompt) pair;
an absent file key resolves within the current file (spec section 4.4). -/
def destinationExists (prompts : Prompts) (currentFile : String) (j : Path) : Bool :=
  match lookupKey prompts (j.file.getD currentFile) with
  | some pf => (lookupKey pf j.prompt).isSome
  | none => false

/-- Modelled from the spec: Choice::validate (src/src/core/choice.rs is not
under src/), per spec section 4.4: with company every choice must carry
response text; an input descriptor must not be combined with ending text
nor with a destination requiring display; a lone bare choice (no response,
input, ending, or destination) is a malformed shape; every destination must
resolve. The script syntax parse check is delegated to the external
interpreter and not modelled. -/
def Choice.validateSpec (c : Choice) (currentFile : String) (hasCompany : Bool)
    (prompts : Prompts) : Except ValidationError Unit :=
  if hasCompany && c.response.isNone then .error .missingResponseInMenu
  else if c.input.isSome && c.ending.isSome then .error .malformedChoiceShape
  else if c.input.isSome && (match c.jump with | some j => j.display | none => false) then
    .error .malformedChoiceShape
  else if !hasCompany && c.response.isNone && c.input.isNone && c.ending.isNone
      && c.jump.isNone then .error .malformedChoiceShape
  else
    match c.jump with
    | some j =>
      if destinationExists prompts currentFile j then .ok () else .error .danglingDestination
    | none => .ok ()

/-- Embedding of collecting an iterator of `Result<(), E>` into
`Result<(), E>` as done by Rust `collect()`: the first error short-circuits
the whole collection. -/
def collectResults : List (Except ε Unit) → Except ε Unit
  | [] => .ok ()
  | r :: rest =>
    match r with
    | .ok () => collectResults rest
    | .error e => .error e

/-- A single apostrophe, used to rebuild the quoted locator messages. -/
def apos : String := String.singleton (Char.ofNat 39)

/-- The context message attached to a failing choice validation by
Prompt::validate (src/src/core/prompt.rs line 87), with the 1-based choice
index `i`. -/
def mkChoiceLocator (name file : String) (i : Nat) : String :=
  "Error when validating choice #" ++ toString i ++ " of prompt " ++ apos ++ name
    ++ apos ++ " in file " ++ apos ++ file ++ apos

/-- The closure mapped over the enumerated choices by Prompt::validate
(src/src/core/prompt.rs lines 85-88): validate one choice and wrap a
failure with the locator context of its 1-based index. -/
def choiceValidationStep (name file : String) (prompts : Prompts) (hasCompany : Bool)
    (ic : Nat × Choice) : Except (String × ValidationError) Unit :=
  match ic.2.validateSpec file hasCompany prompts with
  | .ok () => .ok ()
  | .error e => .error (mkChoiceLocator name file (ic.1 + 1), e)

/-- Prompt::validate from src/src/core/prompt.rs lines 81-90: maps
Choice::validate over the enumerated choices, wrapping each error with the
locator context, and collects the results (short-circuiting at the first
error, as Rust `collect()` into `Result<()>` does). -/
def Prompt.validate (p : Prompt) (name file : String) (prompts : Prompts) :
    Except (String × ValidationError) Unit :=
  let hasCompany := decide (p.choices.length > 1)
  collectResults (p.choices.enum.map (choiceValidationStep name file prompts hasCompany))

/-- Metadata from src/src/core/manifest.rs. The semver `Version` is an
external parsed type; it is embedded as its display string, so the Rust
`version.to_string()` is the identity here. -/
structure Metadata where
  name : String
  id : Option String
  authors : List String
  version : String
  contact : Option (List String)

/-- Metadata::game_id from src/src/core/manifest.rs lines 23-25. -/
def Metadata.game_id (m : Metadata) : String :=
  m.id.getD m.name

/-- HistorySettings from src/src/core/manifest.rs. -/
structure HistorySettings where
  locked : Bool
  size : Nat

/-- Default for HistorySettings from src/src/core/manifest.rs lines 35-42. -/
def HistorySettings.default : HistorySettings :=
  { locked := false, size := 5 }

/-- Settings from src/src/core/manifest.rs. -/
structure Settings where
  save : Bool
  debug : Bool
  speed : TextSpeed
  history : HistorySettings
  lang : Option String
  channels : Option (List (String × Bool))

/-- Default for Settings from src/src/core/manifest.rs lines 55-66. -/
def Settings.default : Settings :=
  { save := true
    debug := false
    speed := .Delay (.value 5)
    history := HistorySettings.default
    lang := none
    channels := none }

/-- Settings::enabled_channels from src/src/core/manifest.rs lines 69-78. -/
def Settings.enabled_channels (s : Settings) : List String :=
  ((s.channels.getD []).filter fun p => p.2).map fun p => p.1

/-- EntrypointSoundAction from src/src/core/manifest.rs. -/
structure EntrypointSoundAction where
  name : String
  channel : String
  seek : Option Nat
  speed : Option Float

/-- Modelled from the spec: PathEntry (src/src/core/player.rs is not under
src/): one entry of the traversal history, a resolved (file, prompt)
location plus the display flag consumed by the game loop
(src/src/game/main.rs line 57). -/
structure PathEntry where
  file : String
  prompt : String
  display : Bool

/-- Entrypoint from src/src/core/manifest.rs. `UnlockedInfoPages` is defined
in a file not under src/ and is embedded as a list of page names. -/
structure Entrypoint where
  path : PathEntry
  background : Option TextLines
  notes : Option Notes
  vars : Option Variables
  info_pages : Option (List String)
  log : Option (List String)
  sounds : Option (List EntrypointSoundAction)

/-- Manifest from src/src/core/manifest.rs. -/
structure Manifest where
  metadata : Metadata
  settings : Settings
  entry : Entrypoint

/-- Manifest::validate from src/src/core/manifest.rs lines 130-136. -/
def Manifest.validate (m : Manifest) : Except String Unit :=
  if m.settings.history.size = 0 then
    .error "Failed to validate manifest: `settings.history.size` must be non-zero"
  else .ok ()

/-- Manifest::load from src/src/core/manifest.rs lines 124-128. File IO and
YAML parsing are external collaborators; the already-parsed value is the
argument, and load validates it before returning it. -/
def Manifest.load (parsed : Manifest) : Except String Manifest :=
  match parsed.validate with
  | .ok () => .ok parsed
  | .error e => .error e

/-- A translation overlay file: key to text mapping
(src/src/text/display.rs line 117), as an association list. -/
abbrev TranslationFile := List (String × String)

/-- The named script table (spec section 6), as an association list. -/
abbrev Scripts := List (String × String)

/-- TextContext from src/src/text/context.rs: owned copies of the mutable
player data plus references to immutable resources. The audio handle is an
opaque external resource; only its presence is kept. -/
structure TextContext where
  config : Manifest
  notes : Notes
  vars : Variables
  lang : String
  lang_file : Option TranslationFile
  scripts : Scripts
  audio : Option Unit

/-- TextContext::global_variable from src/src/text/context.rs lines 35-46:
lowercase the reference, strip the `nage:` namespace prefix, and answer the
four built-in fields. The Rust lowercasing and `strip_prefix` are embedded
on the character list (lowercase every character; when the five prefix
characters match, drop them), keeping every step kernel-reducible. -/
def TextContext.global_variable (ctx : TextContext) (var : String) : Option String :=
  let lower := var.data.map Char.toLower
  if "nage:".data.isPrefixOf lower then
    match String.mk (lower.drop 5) with
    | "game_name" => some ctx.config.metadata.name
    | "game_authors" => some (String.intercalate ", " ctx.config.metadata.authors)
    | "game_version" => some ctx.config.metadata.version
    | "lang" => some ctx.lang
    | _ => none
  else none

/-- Modelled from the spec: the interpolation scanner of
`TemplatableString` resolution (src/src/text/templating.rs is not under
src/). Scans the character list; outside a marker, characters pass through;
a marker opener starts collecting a reference name until the closer, which
is resolved through `resolve` and substituted. An unterminated marker is a
hard error (resolution fails fast rather than emitting partial text). -/
def fillAux (resolve : String → Except TemplateError String) :
    List Char → Option (List Char) → Except TemplateError (List Char)
  | [], none => .ok []
  | [], some _ => .error .unterminatedMarker
  | c :: rest, none =>
    if c = '{' then fillAux resolve rest (some [])
    else
      match fillAux resolve rest none with
      | .ok out => .ok (c :: out)
      | .error e => .error e
  | c :: rest, some acc =>
    if c = '}' then
      match resolve (String.mk acc) with
      | .ok v =>
        match fillAux resolve rest none with
        | .ok out => .ok (v.data ++ out)
        | .error e => .error e
      | .error e => .error e
    else fillAux resolve rest (some (acc ++ [c]))

/-- Modelled from the spec: variable reference resolution without the
translation overlay step, used for the one level of indirection when a
translation value is itself resolved (spec section 4.1). Checks the
built-in namespace, then the Variables map; an unresolved reference is
`unknownVariable`. -/
def resolveVariableNoLang (ctx : TextContext) (name : String) : Except TemplateError String :=
  match ctx.global_variable name with
  | some v => .ok v
  | none =>
    match lookupKey ctx.vars name with
    | some v => .ok v
    | none => .error (.unknownVariable name)

/-- Modelled from the spec: full variable reference resolution (spec
section 4.1): built-in namespace first, then the Variables map, then the
translation overlay; a matching translation value is itself resolved as a
TemplatableString with one level of indirection only (no further
translation lookup). An unresolved reference is `unknownVariable`. -/
def resolveVariable (ctx : TextContext) (name : String) : Except TemplateError String :=
  match ctx.global_variable name with
  | some v => .ok v
  | none =>
    match lookupKey ctx.vars name with
    | some v => .ok v
    | none =>
      match ctx.lang_file.bind fun f => lookupKey f name with
      | some v =>
        match fillAux (resolveVariableNoLang ctx) v.data none with
        | .ok out => .ok (String.mk out)
        | .error e => .error e
      | none => .error (.unknownVariable name)

/-- Modelled from the spec: `resolve_string` / `TemplatableString::fill`
(src/src/text/templating.rs is not under src/): scan the literal for
variable reference markers and substitute each resolved reference. -/
def TemplatableString.fill (s : TemplatableString) (ctx : TextContext) :
    Except TemplateError String :=
  match fillAux (resolveVariable ctx) s.data none with
  | .ok out => .ok (String.mk out)
  | .error e => .error e

/-- The embedded script interpreter capability (an external collaborator,
spec sections 1 and 9): one evaluation binding per result type consumed by
the display layer, each bundling script evaluation and typed coercion. -/
structure ScriptEnv where
  evalNat : String → Except TemplateError Nat
  evalFloat : String → Except TemplateError Float
  evalBool : String → Except TemplateError Bool
  evalMode : String → Except TemplateError TextMode

/-- Outcome of a Rust expression that may also panic, used to make the
`unreachable!()` branch of TextSpeed::rate observable. -/
inductive RustOutcome (T : Type) where
  | ok (t : T)
  | err (e : TemplateError)
  | panicked

/-- TextSpeed::rate from src/src/text/display.rs lines 71-79: the rate
variant returns the contained value; the delay variant computes
`1.0 / delay * 1000.0`; any other variant is the `unreachable!()` branch,
embedded as `panicked`. -/
def TextSpeed.rate (s : TextSpeed) (env : ScriptEnv) : RustOutcome Float :=
  match s with
  | .Rate cps =>
    match cps.get_value env.evalFloat with
    | .ok v => .ok v
    | .error e => .err e
  | .Delay ms =>
    match ms.get_value env.evalNat with
    | .ok v => .ok (1.0 / Float.ofNat v * 1000.0)
    | .error e => .err e
  | _ => .panicked

/-- TextSpeed::print from src/src/text/display.rs lines 88-94: the duration
variant is dispatched to the duration-based snailprinter; every other
variant is printed at the rate computed by TextSpeed::rate. The console
printing itself is an external collaborator; only the control flow and the
possible failures are kept. -/
def TextSpeed.print (s : TextSpeed) (env : ScriptEnv) : RustOutcome Unit :=
  match s with
  | .Duration ms =>
    match ms.get_value env.evalNat with
    | .ok _ => .ok ()
    | .error e => .err e
  | _ =>
    match s.rate env with
    | .ok _ => .ok ()
    | .err e => .err e
    | .panicked => .panicked

/-- Text::newline from src/src/text/display.rs lines 140-147 (named
newlineFlag here because the structure field of the same name exists):
whether a newline should be printed before this line. Uses the `newline`
key if present, otherwise compares the resolved TextMode between this and
the previous line, if any; with no previous line the flag is false. The
Rust `!=` on resolved modes is structural inequality. -/
def Text.newlineFlag (t : Text) (previous : Option Text) (env : ScriptEnv) :
    Except TemplateError Bool :=
  match t.newline with
  | some nl => nl.get_value env.evalBool
  | none =>
    match previous with
    | some line =>
      match t.mode.get_value env.evalMode with
      | .ok m =>
        match line.mode.get_value env.evalMode with
        | .ok m2 => .ok (decide (m ≠ m2))
        | .error e => .error e
      | .error e => .error e
    | none => .ok false

/-- Text::get_separated_lines from src/src/text/display.rs lines 150-154:
pair every line with its leading-newline flag; the Rust
`index.checked_sub(1).map(|i| lines[i])` is the previous line lookup. -/
def Text.get_separated_lines (lines : TextLines) (env : ScriptEnv) :
    Except TemplateError (List (Bool × Text)) :=
  lines.enum.mapM fun il =>
    match Text.newlineFlag il.2 (if il.1 = 0 then none else lines.get? (il.1 - 1)) env with
    | .ok nl => .ok (nl, il.2)
    | .error e => .error e

/-- GameLoopResult from src/src/game/gloop.rs. -/
inductive GameLoopResult where
  | Retry (flush : Bool)
  | Continue
  | Shutdown (silent : Bool)

/-- Modelled from the spec: Player session state (src/src/core/player.rs is
not under src/): the notes set, the variables map and the traversal
history whose head is the latest entry (the current location). -/
structure Player where
  notes : Notes
  vars : Variables
  history : List PathEntry

/-- Modelled from the spec: the latest history entry, the current location
of the player (used by src/src/game/main.rs line 48). -/
def Player.latest_entry (p : Player) : Option PathEntry :=
  p.history.head?

/-- Resolution of every text line content of a block against the context,
as performed before a block is printed. -/
def resolveTextLines (lines : TextLines) (ctx : TextContext) :
    Except TemplateError (List String) :=
  lines.mapM fun t => TemplatableString.fill t.content ctx

/-- Modelled from the spec: the template resolution that Player::choose_full
performs before committing any effect: the response text block of the
triggering action. This is only part of the text resolved while taking a
choice: the ending text block, when present, is resolved by the caller
handle_choice after choose_full has returned (src/src/game/gloop.rs lines
28-31), outside the region guarded by this resolution. -/
def resolveResponseText (c : Choice) (ctx : TextContext) : Except TemplateError Unit :=
  match c.response with
  | some lines =>
    match resolveTextLines lines ctx with
    | .ok _ => .ok ()
    | .error e => .error e
  | none => .ok ()

/-- Modelled from the spec: application of the effects of a taken choice
(src/src/core/player.rs is not under src/): add the notes (idempotently,
the notes are a set), set the variables last-write-wins, and push the
destination entry onto the history when the choice has one (an absent file
key means the current file). -/
def Player.apply_effects (player : Player) (choice : Choice) : Player :=
  let notes := choice.applyNotes.foldl
    (fun ns n => if ns.contains n then ns else ns ++ [n]) player.notes
  let vars := choice.applyVariables.foldl
    (fun vs kv => setVariable vs kv.1 kv.2) player.vars
  let history :=
    match choice.jump with
    | some j =>
      { file := j.file.getD (((player.history.head?).map (·.file)).getD "")
        prompt := j.prompt
        display := j.display } :: player.history
    | none => player.history
  { notes := notes, vars := vars, history := history }

/-- Modelled from the spec: Player::choose_full (src/src/core/player.rs is
not under src/): resolve the text it is responsible for (the response text
of the action) first, then apply the effects of the choice; a resolution
failure aborts before any effect is applied. The ending text block is not
covered: handle_choice resolves it only after choose_full has committed
(src/src/game/gloop.rs lines 27-31). -/
def Player.choose_full (player : Player) (choice : Choice) (ctx : TextContext) :
    Except TemplateError Player :=
  match resolveResponseText choice ctx with
  | .ok () => .ok (player.apply_effects choice)
  | .error e => .error e

/-- handle_choice from src/src/game/gloop.rs lines 25-34: take the choice
through Player::choose_full, then, when the choice has ending text, resolve
and print the ending block and shut down; otherwise continue. The Rust
player is a mutable reference; the returned Player is the state of that
reference when the function returns, on the Ok path and on the error path
alike: a choose_full failure leaves the caller state untouched, while a
failure of the later ending-text resolution propagates through `?` with
the effects committed by choose_full left in place. -/
def handle_choice (choice : Choice) (player : Player) (ctx : TextContext) :
    Player × Except TemplateError GameLoopResult :=
  match player.choose_full choice ctx with
  | .error e => (player, .error e)
  | .ok p2 =>
    match choice.ending with
    | some lines =>
      match resolveTextLines lines ctx with
      | .ok _ => (p2, .ok (.Shutdown true))
      | .error e => (p2, .error e)
    | none => (p2, .ok .Continue)

/-! Concrete fixtures used by the scenario theorems and witnesses. -/

/-- A plain dialogue text line. -/
def textHello : Text :=
  { content := "Hello", mode := .value .dialogue, speed := none, newline := none, wait := none }

/-- Game metadata of the example manifest. -/
def metadataEx : Metadata :=
  { name := "Cool Game", id := none, authors := ["Ava"], version := "1.0.0", contact := none }

/-- Entry point of the example manifest. -/
def entryEx : Entrypoint :=
  { path := { file := "start", prompt := "begin", display := true }
    background := none, notes := none, vars := none
    info_pages := none, log := none, sounds := none }

/-- An example manifest with the default settings. -/
def manifestEx : Manifest :=
  { metadata := metadataEx, settings := Settings.default, entry := entryEx }

/-- An example text context with empty player state and no overlay. -/
def ctxEx : TextContext :=
  { config := manifestEx, notes := [], vars := [], lang := "en"
    lang_file := none, scripts := [], audio := none }

/-- A script environment whose every evaluation fails; the literal-only
fixtures never consult it. -/
def envErr : ScriptEnv :=
  { evalNat := fun _ => .error .typeMismatch
    evalFloat := fun _ => .error .typeMismatch
    evalBool := fun _ => .error .typeMismatch
    evalMode := fun _ => .error .typeMismatch }

/-- A single-choice prompt whose choice carries an input descriptor. -/
def choiceInputEx : Choice :=
  { response := none, input := some { name := "name", text := some "Enter" }
    ending := none, jump := none, require := none
    applyNotes := [], applyVariables := [], sounds := [] }

/-- Prompt wrapping `choiceInputEx`. -/
def promptInputEx : Prompt := { text := none, choices := [choiceInputEx] }

/-- A single choice carrying both an input descriptor and response text. -/
def choiceC2 : Choice :=
  { response := some [textHello], input := some { name := "answer", text := none }
    ending := none, jump := none, require := none
    applyNotes := [], applyVariables := [], sounds := [] }

/-- Prompt wrapping `choiceC2`. -/
def promptC2 : Prompt := { text := none, choices := [choiceC2] }

/-- A one-file graph holding `promptC2`. -/
def gC2 : Prompts := [("start", [("p", promptC2)])]

/-- A choice with a destination but no response text. -/
def choiceBareA : Choice :=
  { response := none, input := none, ending := none
    jump := some { prompt := "p", file := some "start", display := true }
    require := none, applyNotes := [], applyVariables := [], sounds := [] }

/-- A choice with ending text but no response text. -/
def choiceBareB : Choice :=
  { response := none, input := none, ending := some [textHello], jump := none
    require := none, applyNotes := [], applyVariables := [], sounds := [] }

/-- A prompt whose two choices both violate the menu-labelling rule. -/
def promptC4 : Prompt := { text := none, choices := [choiceBareA, choiceBareB] }

/-- A labelled menu choice with no destination. -/
def choiceResp1 : Choice :=
  { response := some [textHello], input := none, ending := none, jump := none
    require := none, applyNotes := [], applyVariables := [], sounds := [] }

/-- A labelled menu choice with a resolving destination. -/
def choiceResp2 : Choice :=
  { response := some [textHello], input := none, ending := none
    jump := some { prompt := "p", file := some "start", display := true }
    require := none, applyNotes := [], applyVariables := [], sounds := [] }

/-- A fully labelled two-choice prompt that passes validation. -/
def promptRespPair : Prompt := { text := none, choices := [choiceResp1, choiceResp2] }

/-- A one-file graph holding `promptC4`. -/
def gC4 : Prompts := [("start", [("p", promptC4)])]

/-!
C1. For every Prompt, model() returns exactly one of Input, Response,
Ending, or Redirect, with the single-choice special cases checked in the
order Input, then (no-response) Ending, then (no-response) Redirect, and
Response in every other case.
-/

/-- C1: for a single-choice prompt, classification checks the input
descriptor first (returning the captured-variable name and optional prompt
string), then, with no response text, ending text (returning the ending
block), then, with no response and no ending, falls to Redirect carrying
the choice; a single choice with no input descriptor but response text is
classified Response. Codomain `PromptModel` makes the result exactly one of
the four variants. -/
theorem prompt_model_single_choice_order (p : Prompt) (c : Choice) (h : p.choices = [c]) :
    (∀ inp, c.input = some inp → p.model = .input inp.name inp.text) ∧
    (c.input = none → c.response = none → ∀ e, c.ending = some e → p.model = .ending e) ∧
    (c.input = none → c.response = none → c.ending = none → p.model = .redirect c) ∧
    (∀ r, c.input = none → c.response = some r → p.model = .response) := by
  refine ⟨?_, ?_, ?_, ?_⟩
  · intro inp hi
    simp [Prompt.model, h, hi]
  · intro hi hr e he
    simp [Prompt.model, h, hi, hr, he]
  · intro hi hr he
    simp [Prompt.model, h, hi, hr, he]
  · intro r hi hr
    simp [Prompt.model, h, hi, hr]

/-- C1 witness: the theorem applied to a concrete single-input-choice
prompt. -/
theorem prompt_model_single_choice_order_witness :
    promptInputEx.model = .input "name" (some "Enter") :=
  (prompt_model_single_choice_order promptInputEx choiceInputEx rfl).1
    { name := "name", text := some "Enter" } rfl

/-!
C2. The claim says model() returns Response for every validator-passing
single-choice prompt whose choice has response text. The code checks the
input descriptor before response text, so a single choice carrying both an
input descriptor and response text is classified Input while passing
validation; the claim holds once such choices are excluded.
-/

/-- C2 counterexample: a validator-passing single-choice prompt whose
choice has response text (and an input descriptor) is classified Input,
not Response. -/
theorem prompt_model_response_counterexample :
    promptC2.validate "p" "start" gC2 = .ok () ∧
    promptC2.choices.length = 1 ∧
    choiceC2.response.isSome = true ∧
    promptC2.model = .input "answer" none ∧
    promptC2.model ≠ .response := by
  refine ⟨rfl, rfl, rfl, rfl, ?_⟩
  intro hcon
  rw [show promptC2.model = .input "answer" none from rfl] at hcon
  exact PromptModel.noConfusion hcon

/-- C2 (amended): model() returns Response whenever the choice count is not
1, and for every single-choice prompt whose choice has response text and no
input descriptor. -/
theorem prompt_model_response_cases (p : Prompt) (c : Choice) (r : TextLines) :
    (p.choices.length ≠ 1 → p.model = .response) ∧
    (p.choices = [c] → c.input = none → c.response = some r → p.model = .response) := by
  constructor
  · intro h
    rcases hp : p.choices with _ | ⟨a, rest⟩
    · simp [Prompt.model, hp]
    · rcases rest with _ | ⟨b, t⟩
      · simp [hp] at h
      · simp [Prompt.model, hp]
  · intro h hi hr
    simp [Prompt.model, h, hi, hr]

/-- C2 witness: the amended theorem applied to a two-choice prompt and to a
single-choice prompt with response text and no input descriptor. -/
theorem prompt_model_response_cases_witness :
    (Prompt.mk none [choiceC2, choiceInputEx]).model = .response ∧
    (Prompt.mk none [{ choiceC2 with input := none }]).model = .response := by
  constructor
  · exact (prompt_model_response_cases (Prompt.mk none [choiceC2, choiceInputEx])
      choiceC2 [textHello]).1 (by decide)
  · exact (prompt_model_response_cases (Prompt.mk none [{ choiceC2 with input := none }])
      { choiceC2 with input := none } [textHello]).2 rfl rfl rfl

/-!
C3. The claim states the built-in reference is `engine:game_name`; the code
strips the namespace prefix `nage:` (src/src/text/context.rs line 36), so
`engine:game_name` is not a built-in and does not resolve, while
`nage:game_name` resolves to the configured metadata name for every
Notes/Variables state.
-/

/-- C3 counterexample: against a concrete context, `engine:game_name` is
not a built-in variable and full reference resolution fails with
UnknownVariable instead of returning the configured name. -/
theorem engine_game_name_counterexample :
    manifestEx.metadata.name = "Cool Game" ∧
    ctxEx.global_variable "engine:game_name" = none ∧
    resolveVariable ctxEx "engine:game_name"
      = .error (.unknownVariable "engine:game_name") :=
  ⟨rfl, rfl, rfl⟩

/-- C3 (amended): for every configuration, language, overlay and any
Notes/Variables state, the built-in reference `nage:game_name` resolves to
exactly the configured metadata name (both through the built-in lookup and
through full reference resolution, which checks built-ins first). -/
theorem nage_game_name_builtin (config : Manifest) (notes : Notes) (vars : Variables)
    (lang : String) (lf : Option TranslationFile) (scripts : Scripts) (audio : Option Unit) :
    TextContext.global_variable
        { config := config, notes := notes, vars := vars, lang := lang
          lang_file := lf, scripts := scripts, audio := audio } "nage:game_name"
      = some config.metadata.name ∧
    resolveVariable
        { config := config, notes := notes, vars := vars, lang := lang
          lang_file := lf, scripts := scripts, audio := audio } "nage:game_name"
      = .ok config.metadata.name := by
  constructor <;> rfl

/-!
C4. The claim says Prompt::validate reports all violations together. The
source collects an iterator of results into `Result<()>`
(src/src/core/prompt.rs lines 84-89), which short-circuits at the first
error, so only the first failing choice is reported; the Ok case and the
locator are as claimed.
-/

/-- Collection of the validation steps over an enumeration succeeds
exactly when every underlying choice validates. -/
theorem collect_step_ok_iff (name file : String) (g : Prompts) (hc : Bool)
    (l : List Choice) (k : Nat) :
    collectResults ((List.enumFrom k l).map (choiceValidationStep name file g hc)) = .ok ()
      ↔ ∀ c ∈ l, c.validateSpec file hc g = .ok () := by
  induction l generalizing k with
  | nil => simp [List.enumFrom, collectResults]
  | cons a t ih =>
    simp only [List.enumFrom, List.map_cons]
    cases hfa : a.validateSpec file hc g with
    | ok u =>
      obtain ⟨⟩ := u
      simp [collectResults, choiceValidationStep, hfa, ih (k + 1)]
    | error e =>
      simp [collectResults, choiceValidationStep, hfa]

/-- Collection of the validation steps short-circuits: if every choice
before index `i` validates and the choice at `i` fails with `e`, the
collected result is exactly the locator-wrapped error of index `i`. -/
theorem collect_step_first_error (name file : String) (g : Prompts) (hc : Bool)
    (l : List Choice) (k i : Nat) (c : Choice) (e : ValidationError)
    (hget : l.get? i = some c)
    (htake : ∀ b ∈ l.take i, b.validateSpec file hc g = .ok ())
    (herr : c.validateSpec file hc g = .error e) :
    collectResults ((List.enumFrom k l).map (choiceValidationStep name file g hc))
      = .error (mkChoiceLocator name file (k + i + 1), e) := by
  induction l generalizing k i with
  | nil => simp at hget
  | cons x t ih =>
    cases i with
    | zero =>
      have hx : x = c := by simpa using hget
      subst hx
      simp [List.enumFrom, collectResults, choiceValidationStep, herr]
    | succ j =>
      have hx : x.validateSpec file hc g = .ok () := htake x (by simp)
      have hrec := ih (k + 1) j (by simpa using hget)
        (fun b hb => htake b (by simp [hb]))
      have hkj : k + 1 + j + 1 = k + (j + 1) + 1 := by omega
      simp only [List.enumFrom, List.map_cons]
      rw [← hkj, ← hrec]
      simp [collectResults, choiceValidationStep, hx]

/-- C4 counterexample: a prompt with two choices that each violate
validation (both lack response text while having company); Prompt::validate
surfaces only the first violation, with the locator of choice #1, rather
than both. -/
theorem validate_fail_fast_counterexample :
    choiceBareA.validateSpec "start" true gC4 = .error .missingResponseInMenu ∧
    choiceBareB.validateSpec "start" true gC4 = .error .missingResponseInMenu ∧
    promptC4.validate "p" "start" gC4
      = .error (mkChoiceLocator "p" "start" 1, .missingResponseInMenu) :=
  ⟨rfl, rfl, rfl⟩

/-- C4 (amended): Prompt::validate is fail-fast: it returns Ok(()) exactly
when every choice passes validation, and otherwise returns the first
violation in choice order, wrapped with the (file, prompt, 1-based index)
locator context. -/
theorem validate_fail_fast (p : Prompt) (name file : String) (g : Prompts) :
    (p.validate name file g = .ok () ↔
      ∀ c ∈ p.choices, c.validateSpec file (decide (p.choices.length > 1)) g = .ok ()) ∧
    (∀ i c e, p.choices.get? i = some c →
      (∀ c2 ∈ p.choices.take i,
        c2.validateSpec file (decide (p.choices.length > 1)) g = .ok ()) →
      c.validateSpec file (decide (p.choices.length > 1)) g = .error e →
      p.validate name file g = .error (mkChoiceLocator name file (i + 1), e)) := by
  constructor
  · exact collect_step_ok_iff name file g (decide (p.choices.length > 1)) p.choices 0
  · intro i c e hget htake herr
    have h := collect_step_first_error name file g (decide (p.choices.length > 1))
      p.choices 0 i c e hget htake herr
    simpa [Prompt.validate] using h

/-- C4 witness: the amended theorem applied to the two-bad-choice prompt
(first-error case, discharging the hypotheses by evaluation) and to an
all-passing two-choice prompt (Ok case). -/
theorem validate_fail_fast_witness :
    promptC4.validate "p" "start" gC4
      = .error (mkChoiceLocator "p" "start" 1, .missingResponseInMenu) ∧
    promptRespPair.validate "q" "start" gC4 = .ok () := by
  constructor
  · exact (validate_fail_fast promptC4 "p" "start" gC4).2 0 choiceBareA
      .missingResponseInMenu rfl (by simp) rfl
  · refine (validate_fail_fast promptRespPair "q" "start" gC4).1.mpr ?_
    intro c hc
    have : c = choiceResp1 ∨ c = choiceResp2 := by simpa [promptRespPair] using hc
    rcases this with rfl | rfl <;> rfl

/-!
C5. Per-line leading-newline flags of text composition.
-/

/-- A literal dialogue line. -/
def lineD1 : Text :=
  { content := "one", mode := .value .dialogue, speed := none, newline := none, wait := none }

/-- A second literal dialogue line. -/
def lineD2 : Text :=
  { content := "two", mode := .value .dialogue, speed := none, newline := none, wait := none }

/-- A literal action line. -/
def lineA3 : Text :=
  { content := "three", mode := .value .action, speed := none, newline := none, wait := none }

/-- Three lines with resolved modes dialogue, dialogue, action. -/
def linesDDA : TextLines := [lineD1, lineD2, lineA3]

/-- A line with an explicit newline override. -/
def lineOverride : Text :=
  { content := "o", mode := .value .dialogue, speed := none
    newline := some (.value true), wait := none }

/-- C5: the leading-newline flag is the explicit override when present;
otherwise the first line gets false regardless of its resolved mode, and a
later line gets true exactly when its resolved mode differs from the
previous line of resolved modes; three lines with resolved modes
[dialogue, dialogue, action] and no overrides yield flags
[false, false, true]. -/
theorem newline_flag_spec (t prev : Text) (pOpt : Option Text) (env : ScriptEnv)
    (m m2 : TextMode) :
    (∀ nl, t.newline = some nl → Text.newlineFlag t pOpt env = nl.get_value env.evalBool) ∧
    (t.newline = none → Text.newlineFlag t none env = .ok false) ∧
    (t.newline = none → t.mode.get_value env.evalMode = .ok m →
      prev.mode.get_value env.evalMode = .ok m2 →
      (m ≠ m2 → Text.newlineFlag t (some prev) env = .ok true) ∧
      (m = m2 → Text.newlineFlag t (some prev) env = .ok false)) ∧
    Text.get_separated_lines linesDDA envErr
      = .ok [(false, lineD1), (false, lineD2), (true, lineA3)] := by
  refine ⟨?_, ?_, ?_, rfl⟩
  · intro nl h
    simp [Text.newlineFlag, h]
  · intro h
    simp [Text.newlineFlag, h]
  · intro h hm hm2
    constructor
    · intro hne
      simp [Text.newlineFlag, h, hm, hm2, hne]
    · intro heq
      simp [Text.newlineFlag, h, hm, hm2, heq]

/-- C5 witness: the theorem applied at concrete lines, discharging the
hypotheses by evaluation: an override line, a first line, and a
mode-changing line. -/
theorem newline_flag_spec_witness :
    Text.newlineFlag lineOverride (some lineD1) envErr = .ok true ∧
    Text.newlineFlag lineD1 none envErr = .ok false ∧
    Text.newlineFlag lineA3 (some lineD2) envErr = .ok true := by
  refine ⟨?_, ?_, ?_⟩
  · exact (newline_flag_spec lineOverride lineD1 (some lineD1) envErr
      .dialogue .dialogue).1 (.value true) rfl
  · exact (newline_flag_spec lineD1 lineD1 none envErr .dialogue .dialogue).2.1 rfl
  · exact ((newline_flag_spec lineA3 lineD2 none envErr .action .dialogue).2.2.1
      rfl rfl rfl).1 (by decide)

/-!
C6. Usability filtering.
-/

/-- A choice with no usability predicate. -/
def choiceFree : Choice :=
  { response := some [textHello], input := none, ending := none, jump := none
    require := none, applyNotes := [], applyVariables := [], sounds := [] }

/-- A choice requiring note X absent. -/
def choiceNeedsAbsentX : Choice :=
  { response := some [textHello], input := none, ending := none, jump := none
    require := some [{ name := "X", has := false }]
    applyNotes := [], applyVariables := [], sounds := [] }

/-- A prompt holding the two usability fixtures. -/
def promptUse : Prompt := { text := none, choices := [choiceFree, choiceNeedsAbsentX] }

/-- C6: the usability check is a pure function of the choice and the notes
(two evaluations against unchanged notes agree); a choice with no
usability predicate is always usable; usable_choices is the in-order
sublist of the choices whose usability check holds; a choice requiring a
note absent is usable exactly when that note is not in the set. -/
theorem usable_choices_spec (p : Prompt) (c : Choice) (notes : Notes) (nm : String) :
    (c.require = none → c.can_player_use notes = true) ∧
    (c.can_player_use notes = c.can_player_use notes) ∧
    List.Sublist (p.usable_choices notes) p.choices ∧
    (c ∈ p.usable_choices notes ↔ c ∈ p.choices ∧ c.can_player_use notes = true) ∧
    (c.require = some [{ name := nm, has := false }] →
      (c.can_player_use notes = true ↔ nm ∉ notes)) := by
  refine ⟨?_, rfl, ?_, ?_, ?_⟩
  · intro h
    simp [Choice.can_player_use, h]
  · exact List.filter_sublist p.choices
  · simp [Prompt.usable_choices, List.mem_filter]
  · intro h
    by_cases hmem : nm ∈ notes <;>
      simp [Choice.can_player_use, h, hmem, List.elem_eq_mem]

/-- C6 witness: the theorem applied at concrete choices and notes sets,
discharging the hypotheses by evaluation. -/
theorem usable_choices_spec_witness :
    choiceFree.can_player_use ["X"] = true ∧
    (choiceNeedsAbsentX.can_player_use ["X"] = true ↔ "X" ∉ (["X"] : Notes)) ∧
    (choiceNeedsAbsentX.can_player_use [] = true ↔ "X" ∉ ([] : Notes)) ∧
    List.Sublist (promptUse.usable_choices ["X"]) promptUse.choices := by
  refine ⟨?_, ?_, ?_, ?_⟩
  · exact (usable_choices_spec promptUse choiceFree ["X"] "X").1 rfl
  · exact (usable_choices_spec promptUse choiceNeedsAbsentX ["X"] "X").2.2.2.2 rfl
  · exact (usable_choices_spec promptUse choiceNeedsAbsentX [] "X").2.2.2.2 rfl
  · exact (usable_choices_spec promptUse choiceFree ["X"] "X").2.2.1

/-!
C7. Atomicity of taking a choice under a template-resolution failure. The
claim fails on both halves: gloop.rs lines 27-31 resolve the ending text
only after choose_full has committed the effects on the mutable player, so
an ending-resolution failure leaves the effects committed; and the error
then propagates out of the game loop (src/src/game/gloop.rs line 63,
src/src/game/main.rs line 69) instead of the same prompt being re-offered.
-/

/-- A text line whose content references an unknown variable. -/
def textBad : Text :=
  { content := "{missing}", mode := .value .dialogue, speed := none
    newline := none, wait := none }

/-- A choice whose response text fails to resolve and whose effects would
visibly change the player state if committed. -/
def choiceBad : Choice :=
  { response := some [textBad], input := none, ending := none
    jump := some { prompt := "end", file := some "start", display := true }
    require := none, applyNotes := ["visited"]
    applyVariables := [("met", "true")], sounds := [] }

/-- A labelled menu choice whose response text resolves but whose ending
text does not, carrying note and variable effects. -/
def choiceEndBad : Choice :=
  { response := some [textHello], input := none, ending := some [textBad]
    jump := none, require := none, applyNotes := ["visited"]
    applyVariables := [("met", "true")], sounds := [] }

/-- A validator-passing two-choice menu whose first choice is
`choiceEndBad`. -/
def promptEndBad : Prompt := { text := none, choices := [choiceEndBad, choiceResp1] }

/-- A player located at the starting prompt with empty notes and
variables. -/
def player0 : Player :=
  { notes := [], vars := [], history := [{ file := "start", prompt := "begin", display := true }] }

/-- C7 counterexample: a validator-passing menu choice whose response text
resolves but whose ending text does not. choose_full succeeds and commits
the effects on the mutable player; the ending-text resolution performed
while taking the choice then fails, and handle_choice returns with the
notes and variables changed and an error (which the source propagates out
of the game loop) - refuting both the no-commit and the re-offer parts of
the claim. -/
theorem choice_failure_counterexample :
    promptEndBad.validate "p" "start" gC4 = .ok () ∧
    (handle_choice choiceEndBad player0 ctxEx).2 = .error (.unknownVariable "missing") ∧
    (handle_choice choiceEndBad player0 ctxEx).1.notes = ["visited"] ∧
    (handle_choice choiceEndBad player0 ctxEx).1.notes ≠ player0.notes ∧
    (handle_choice choiceEndBad player0 ctxEx).1.vars ≠ player0.vars := by
  refine ⟨rfl, rfl, rfl, by decide, by decide⟩

/-- C7 (amended): the atomic region is choose_full: if the response-text
resolution it performs fails, no part of the effects of the choice is
committed (the player is returned unchanged, so the game does not advance)
and the error is surfaced; but if choose_full succeeds and the ending-text
resolution performed afterwards (gloop.rs line 30) fails, the committed
effects remain in place. In both cases the error propagates out of the
game loop (aborting the session) rather than the same prompt being
re-offered. -/
theorem choice_failure_atomic (player : Player) (choice : Choice) (ctx : TextContext)
    (e : TemplateError) :
    (resolveResponseText choice ctx = .error e →
      handle_choice choice player ctx = (player, .error e)) ∧
    (∀ lines, resolveResponseText choice ctx = .ok () → choice.ending = some lines →
      resolveTextLines lines ctx = .error e →
      handle_choice choice player ctx = (player.apply_effects choice, .error e)) := by
  constructor
  · intro h
    simp [handle_choice, Player.choose_full, h]
  · intro lines hok hend herr
    simp [handle_choice, Player.choose_full, hok, hend, herr]

/-- C7 witness: the amended theorem applied at concrete failing choices,
discharging the resolution hypotheses by evaluation: a response-text
failure commits nothing, an ending-text failure keeps the committed
effects. -/
theorem choice_failure_atomic_witness :
    handle_choice choiceBad player0 ctxEx
      = (player0, .error (.unknownVariable "missing")) ∧
    handle_choice choiceEndBad player0 ctxEx
      = (player0.apply_effects choiceEndBad, .error (.unknownVariable "missing")) := by
  refine ⟨?_, ?_⟩
  · exact (choice_failure_atomic player0 choiceBad ctxEx
      (.unknownVariable "missing")).1 rfl
  · exact (choice_failure_atomic player0 choiceEndBad ctxEx
      (.unknownVariable "missing")).2 [textBad] rfl rfl rfl

/-!
C8. Literal resolution.
-/

/-- Scanning a character list that holds no marker opener reproduces it
unchanged. -/
theorem fillAux_no_marker (resolve : String → Except TemplateError String)
    (l : List Char) (h : '{' ∉ l) :
    fillAux resolve l none = .ok l := by
  induction l with
  | nil => rfl
  | cons c rest ih =>
    have hc : ¬ (c = '{') := fun hcq => h (hcq ▸ List.mem_cons_self c rest)
    have hr : '{' ∉ rest := fun hm => h (List.mem_cons_of_mem c hm)
    simp [fillAux, hc, ih hr]

/-- C8: resolving a literal TemplatableValue returns the literal unchanged,
cannot fail, and never consults the interpreter (the result is the same
under any two interpreter bindings); filling a TemplatableString with no
interpolation markers returns the source text unchanged. -/
theorem literal_resolution_spec (T : Type) (t : T)
    (ev ev2 : String → Except TemplateError T)
    (s : TemplatableString) (ctx : TextContext) (h : '{' ∉ s.data) :
    TemplatableValue.get_value (.value t) ev = .ok t ∧
    TemplatableValue.get_value (.value t) ev = TemplatableValue.get_value (.value t) ev2 ∧
    TemplatableString.fill s ctx = .ok s := by
  refine ⟨rfl, rfl, ?_⟩
  unfold TemplatableString.fill
  rw [fillAux_no_marker _ _ h]

/-- C8 witness: the theorem applied at a literal number under a failing
interpreter and at a marker-free string, discharging the no-marker
hypothesis by evaluation. -/
theorem literal_resolution_spec_witness :
    TemplatableValue.get_value (.value (3 : Nat)) (fun _ => .error .typeMismatch) = .ok 3 ∧
    TemplatableString.fill "Hello" ctxEx = .ok "Hello" := by
  have h := literal_resolution_spec Nat 3 (fun _ => .error .typeMismatch)
    (fun _ => .ok 0) "Hello" ctxEx (by decide)
  exact ⟨h.1, h.2.2⟩

/-!
C9. TextSpeed::print never reaches the unreachable branch of
TextSpeed::rate.
-/

/-- C9: print dispatches the Duration variant to the duration-based printer
before calling rate, so the unreachable branch of rate is never observed;
on the Rate and Delay variants rate is total modulo resolution, returning
the contained rate or `(1.0 / delay) * 1000.0` respectively. -/
theorem textspeed_print_never_unreachable (s : TextSpeed) (env : ScriptEnv)
    (tvF : TemplatableValue Float) (tvN : TemplatableValue Nat) (rv : Float) (dv : Nat) :
    s.print env ≠ .panicked ∧
    (tvF.get_value env.evalFloat = .ok rv → TextSpeed.rate (.Rate tvF) env = .ok rv) ∧
    (tvN.get_value env.evalNat = .ok dv →
      TextSpeed.rate (.Delay tvN) env = .ok (1.0 / Float.ofNat dv * 1000.0)) := by
  refine ⟨?_, ?_, ?_⟩
  · cases s with
    | Delay ms =>
      cases hv : ms.get_value env.evalNat <;> simp [TextSpeed.print, TextSpeed.rate, hv]
    | Rate cps =>
      cases hv : cps.get_value env.evalFloat <;> simp [TextSpeed.print, TextSpeed.rate, hv]
    | Duration ms =>
      cases hv : ms.get_value env.evalNat <;> simp [TextSpeed.print, hv]
  · intro h
    simp [TextSpeed.rate, h]
  · intro h
    simp [TextSpeed.rate, h]

/-- C9 witness: the theorem applied at concrete speeds, discharging the
resolution hypotheses by evaluation. -/
theorem textspeed_print_never_unreachable_witness :
    TextSpeed.print (.Duration (.value 100)) envErr ≠ .panicked ∧
    TextSpeed.rate (.Rate (.value 200.0)) envErr = .ok 200.0 ∧
    TextSpeed.rate (.Delay (.value 5)) envErr = .ok (1.0 / Float.ofNat 5 * 1000.0) := by
  have h := textspeed_print_never_unreachable (.Duration (.value 100)) envErr
    (.value 200.0) (.value 5) 200.0 5
  exact ⟨h.1, h.2.1 rfl, h.2.2 rfl⟩

/-!
C10. The manifest history-size invariant.
-/

/-- C10: after successful parsing, Manifest::load fails exactly when the
history size is zero; a successfully loaded manifest has positive history
size; the default history settings carry size 5, which satisfies the
invariant. -/
theorem manifest_history_size_invariant (m : Manifest) :
    ((∃ e, Manifest.load m = .error e) ↔ m.settings.history.size = 0) ∧
    (∀ m2, Manifest.load m = .ok m2 → 0 < m2.settings.history.size) ∧
    HistorySettings.default.size = 5 ∧
    0 < Settings.default.history.size := by
  refine ⟨⟨?_, ?_⟩, ?_, rfl, by decide⟩
  · rintro ⟨e, he⟩
    by_contra h
    simp [Manifest.load, Manifest.validate, h] at he
  · intro h
    exact ⟨"Failed to validate manifest: `settings.history.size` must be non-zero",
      by simp [Manifest.load, Manifest.validate, h]⟩
  · intro m2 hm2
    by_cases h : m.settings.history.size = 0
    · simp [Manifest.load, Manifest.validate, h] at hm2
    · simp [Manifest.load, Manifest.validate, h] at hm2
      rw [← hm2]
      omega

/-- C10 witness: the theorem applied to the example manifest, whose load
succeeds with a positive history size. -/
theorem manifest_history_size_invariant_witness :
    Manifest.load manifestEx = .ok manifestEx ∧
    0 < manifestEx.settings.history.size := by
  have h := manifest_history_size_invariant manifestEx
  have hok : Manifest.load manifestEx = .ok manifestEx := rfl
  exact ⟨hok, h.2.1 manifestEx hok⟩

end Nage
